import Mathlib

/-!
Verification of the kaito-proxy request handler (`src/unnamed/part_000`,
`module.exports = async function handler(req, res)`).

The handler is embedded shallowly as a pure function:
  * the inbound request is its method (a `String`) and the two recognized
    query parameters `username` and `user_id` (`Option String`, `none`
    meaning the key is absent from the query string);
  * the behavior of the single outbound `fetch` call is a parameter
    (`FetchOutcome`): either the transport throws, or a response arrives
    with a status, a status text, and a body whose `json()` either yields
    a parsed JSON value or throws (the JSON value type is abstract);
  * the result records the HTTP response produced (status, headers, body)
    together with the URL of the outbound call, when one was issued.

The query-string construction (`URLSearchParams` with `append` and
`toString`) is embedded at the byte level: strings are UTF-8 encoded and
each byte is serialized per `application/x-www-form-urlencoded`
(unreserved bytes verbatim, space as `+`, everything else as `%XX`).
-/

namespace KaitoProxy

/-- JavaScript truthiness of an optional query-string value: an absent key
and the empty string are falsy, every other string is truthy
(line 23: `if (!username && !user_id)`; lines 30–31: `if (username)`,
`if (user_id)`). -/
def truthy (o : Option String) : Bool := o.getD "" ≠ ""

/-- The body of the upstream response, as seen through `response.json()`
(line 53): either a parsed JSON value of abstract type `α`, or a parse
failure (the promise rejects, landing in the `catch`). -/
inductive JsonBody (α : Type) where
  | ok (data : α)
  | malformed
deriving DecidableEq, Repr

/-- The outcome of the outbound `fetch` call (line 37): either the
transport throws, or a response object arrives carrying `status`,
`statusText` and a body. -/
inductive FetchOutcome (α : Type) where
  | transportError
  | resp (status : Nat) (statusText : String) (body : JsonBody α)
deriving DecidableEq, Repr

/-- The body of the proxy's own response: empty (`res.end()`), a JSON
value passed through (`res.json(data)`), or a synthesized
`{ "error": msg }` object (`res.json({ error: ... })`). -/
inductive ResBody (α : Type) where
  | empty
  | json (data : α)
  | errorObj (msg : String)
deriving DecidableEq, Repr

/-- The HTTP response the handler produces. -/
structure Res (α : Type) where
  status : Nat
  headers : List (String × String)
  body : ResBody α
deriving DecidableEq, Repr

/-- The observable effect of one handler invocation: the response sent,
and the outbound URL (as a list of character codes) when a `fetch` was
attempted (`none` when no upstream call was made). -/
structure HandlerResult (α : Type) where
  res : Res α
  fetched : Option (List Nat)
deriving DecidableEq, Repr

/-- The three CORS headers set unconditionally at the top of the handler
(lines 3–5). -/
def corsHeaders : List (String × String) :=
  [("Access-Control-Allow-Origin", "*"),
   ("Access-Control-Allow-Methods", "GET"),
   ("Access-Control-Allow-Headers", "Content-Type")]

/-! ### URLSearchParams serialization, at the byte level -/

/-- UTF-8 encoding of a single code point, as a list of byte values. -/
def charUtf8 (n : Nat) : List Nat :=
  if n < 0x80 then [n]
  else if n < 0x800 then [0xC0 + n / 64, 0x80 + n % 64]
  else if n < 0x10000 then
    [0xE0 + n / 4096, 0x80 + (n / 64) % 64, 0x80 + n % 64]
  else
    [0xF0 + n / 262144, 0x80 + (n / 4096) % 64, 0x80 + (n / 64) % 64,
     0x80 + n % 64]

/-- The UTF-8 bytes of a string. -/
def strBytes (s : String) : List Nat :=
  s.data.flatMap (fun c => charUtf8 c.toNat)

/-- Bytes that `application/x-www-form-urlencoded` serialization leaves
verbatim: ASCII alphanumerics and `*`, `-`, `.`, `_`. -/
def urlencodedSafe (b : Nat) : Bool :=
  (48 ≤ b && b ≤ 57) || (65 ≤ b && b ≤ 90) || (97 ≤ b && b ≤ 122) ||
  b = 42 || b = 45 || b = 46 || b = 95

/-- Code of the uppercase hexadecimal digit for `n < 16`. -/
def hexDigitCode (n : Nat) : Nat := if n < 10 then 48 + n else 55 + n

/-- `application/x-www-form-urlencoded` serialization of one byte: safe
bytes verbatim, space (32) as `+` (43), anything else as `%XX` (37
followed by two uppercase hex digit codes). -/
def encodeByte (b : Nat) : List Nat :=
  if urlencodedSafe b then [b]
  else if b = 32 then [43]
  else [37, hexDigitCode (b / 16), hexDigitCode (b % 16)]

/-- Serialization of a byte string. -/
def encBytes (s : List Nat) : List Nat := s.flatMap encodeByte

/-- One serialized `key=value` pair (61 is `=`). -/
def serializePair (kv : List Nat × List Nat) : List Nat :=
  encBytes kv.1 ++ 61 :: encBytes kv.2

/-- `URLSearchParams.toString()`: the serialized pairs joined by `&`
(38). -/
def serializeQuery : List (List Nat × List Nat) → List Nat
  | [] => []
  | [kv] => serializePair kv
  | kv :: rest => serializePair kv ++ 38 :: serializeQuery rest

/-- The list of `append` calls the handler performs on its
`URLSearchParams` (lines 29–31): `username` first when truthy, then
`user_id` when truthy. -/
def buildPairs (username user_id : Option String) : List (String × String) :=
  (if truthy username then [("username", username.getD "")] else []) ++
  (if truthy user_id then [("user_id", user_id.getD "")] else [])

/-- The appended pairs, as UTF-8 byte strings. -/
def pairBytes (username user_id : Option String) :
    List (List Nat × List Nat) :=
  (buildPairs username user_id).map (fun kv => (strBytes kv.1, strBytes kv.2))

/-- The outbound query string (`queryParams.toString()`, line 34), as a
list of character codes. -/
def queryStringCodes (username user_id : Option String) : List Nat :=
  serializeQuery (pairBytes username user_id)

/-- Character codes of the fixed upstream base URL prefix of line 34. -/
def baseUrlCodes : List Nat :=
  ("https://api.kaito.ai/api/v1/yaps?".toList).map Char.toNat

/-- The full outbound URL of line 34, as character codes. -/
def kaitoUrlCodes (username user_id : Option String) : List Nat :=
  baseUrlCodes ++ queryStringCodes username user_id

/-! ### Parsing a query string back (the spec side of claim C10) -/

/-- Numeric value of a hexadecimal digit code (0 on non-digits). -/
def hexVal (c : Nat) : Nat :=
  if 48 ≤ c && c ≤ 57 then c - 48
  else if 65 ≤ c && c ≤ 70 then c - 55
  else if 97 ≤ c && c ≤ 102 then c - 87
  else 0

/-- Percent-decoding of an urlencoded component: `+` (43) becomes space
(32), `%XX` (37 then two hex digit codes) becomes the byte `XX`, any
other code stands for itself. -/
def decodeBytes : List Nat → List Nat
  | [] => []
  | 43 :: rest => 32 :: decodeBytes rest
  | 37 :: h1 :: h2 :: r => (16 * hexVal h1 + hexVal h2) :: decodeBytes r
  | 37 :: _ => []
  | c :: rest => c :: decodeBytes rest

/-- Split a code list on `&` (38). Always returns a nonempty list of
pieces. -/
def splitAmp : List Nat → List (List Nat)
  | [] => [[]]
  | c :: rest =>
    if c = 38 then [] :: splitAmp rest
    else
      match splitAmp rest with
      | [] => [[c]]
      | p :: ps => (c :: p) :: ps

/-- Split one `key=value` piece at its first `=` (61); a piece without
`=` is all key. -/
def splitEq : List Nat → List Nat × List Nat
  | [] => ([], [])
  | c :: rest =>
    if c = 61 then ([], rest)
    else
      let p := splitEq rest
      (c :: p.1, p.2)

/-- Parse an urlencoded query string back into its key–value pairs:
split on `&`, drop empty pieces, split each piece at its first `=`,
percent-decode both sides. -/
def parseQuery (s : List Nat) : List (List Nat × List Nat) :=
  ((splitAmp s).filter (fun p => !p.isEmpty)).map
    (fun p => (decodeBytes (splitEq p).1, decodeBytes (splitEq p).2))

/-! ### The handler -/

/-- Shallow embedding of the handler (lines 1–62).  Branches, in source
order: CORS headers on every path; `OPTIONS` preflight (lines 8–11);
non-`GET` method (lines 14–17); missing parameters (lines 23–26); the
`fetch` and the `try`/`catch` (lines 19, 37, 58–61): a transport throw or
a `response.json()` throw lands in the `catch` (500); a non-ok upstream
status yields 502 (lines 46–50); otherwise the parsed JSON value is
passed through with status 200 (lines 53–56). -/
def handler {α : Type} (method : String) (username user_id : Option String)
    (upstream : FetchOutcome α) : HandlerResult α :=
  let hs := corsHeaders
  if method = "OPTIONS" then ⟨⟨200, hs, .empty⟩, none⟩
  else if method ≠ "GET" then ⟨⟨405, hs, .errorObj "Method not allowed"⟩, none⟩
  else if !truthy username && !truthy user_id then
    ⟨⟨400, hs, .errorObj "username or user_id required"⟩, none⟩
  else
    let url := kaitoUrlCodes username user_id
    match upstream with
    | .transportError => ⟨⟨500, hs, .errorObj "Internal server error"⟩, some url⟩
    | .resp status _ body =>
      if !(200 ≤ status && status ≤ 299) then
        ⟨⟨502, hs, .errorObj "Upstream error"⟩, some url⟩
      else
        match body with
        | .ok data => ⟨⟨200, hs, .json data⟩, some url⟩
        | .malformed => ⟨⟨500, hs, .errorObj "Internal server error"⟩, some url⟩

/-! ### Encoding lemmas -/

theorem char_toNat_lt (c : Char) : c.toNat < 0x110000 := by
  have h := c.valid
  rcases h with h | h
  · exact Nat.lt_trans h (by norm_num)
  · exact h.2

theorem charUtf8_lt (n : Nat) (b : Nat) (hb : b ∈ charUtf8 n)
    (hn : n < 0x110000) : b < 256 := by
  unfold charUtf8 at hb
  split_ifs at hb <;> fin_cases hb <;> omega

theorem strBytes_lt (s : String) : ∀ b ∈ strBytes s, b < 256 := by
  intro b hb
  simp only [strBytes, List.mem_flatMap] at hb
  obtain ⟨c, _, hc⟩ := hb
  exact charUtf8_lt c.toNat b hc (char_toNat_lt c)

theorem hexVal_hexDigitCode (n : Nat) (h : n < 16) :
    hexVal (hexDigitCode n) = n := by
  unfold hexVal hexDigitCode
  split_ifs <;> simp_all <;> omega

theorem encodeByte_no_special (b : Nat) :
    ∀ x ∈ encodeByte b, x ≠ 38 ∧ x ≠ 61 := by
  intro x hx
  unfold encodeByte hexDigitCode at hx
  split_ifs at hx with hsafe hsp hx1 hx2 <;>
    simp only [urlencodedSafe, Bool.or_eq_true, Bool.and_eq_true,
      decide_eq_true_eq] at * <;>
    simp only [List.mem_cons, List.not_mem_nil, or_false] at hx <;>
    omega

theorem encBytes_no_special (s : List Nat) :
    ∀ x ∈ encBytes s, x ≠ 38 ∧ x ≠ 61 := by
  intro x hx
  simp only [encBytes, List.mem_flatMap] at hx
  obtain ⟨b, _, hb⟩ := hx
  exact encodeByte_no_special b x hb

theorem decode_encodeByte (b : Nat) (h : b < 256) (rest : List Nat) :
    decodeBytes (encodeByte b ++ rest) = b :: decodeBytes rest := by
  unfold encodeByte
  split_ifs with hsafe hsp
  · have h43 : b ≠ 43 := by
      simp only [urlencodedSafe, Bool.or_eq_true, Bool.and_eq_true,
        decide_eq_true_eq] at hsafe
      omega
    have h37 : b ≠ 37 := by
      simp only [urlencodedSafe, Bool.or_eq_true, Bool.and_eq_true,
        decide_eq_true_eq] at hsafe
      omega
    simp [decodeBytes, h43, h37]
  · subst hsp
    simp [decodeBytes]
  · have hdiv : b / 16 < 16 := by omega
    have hmod : b % 16 < 16 := by omega
    simp [decodeBytes, hexVal_hexDigitCode _ hdiv, hexVal_hexDigitCode _ hmod]
    omega

theorem decode_encBytes (s : List Nat) (h : ∀ b ∈ s, b < 256)
    (rest : List Nat) :
    decodeBytes (encBytes s ++ rest) = s ++ decodeBytes rest := by
  induction s with
  | nil => simp [encBytes]
  | cons b s ih =>
    have hb : b < 256 := h b (List.mem_cons_self b s)
    have hs : ∀ x ∈ s, x < 256 := fun x hx => h x (List.mem_cons_of_mem b hx)
    simp only [encBytes, List.flatMap_cons, List.append_assoc]
    rw [decode_encodeByte b hb]
    simp only [List.cons_append, List.cons.injEq, true_and]
    exact ih hs

theorem decode_encBytes_nil (s : List Nat) (h : ∀ b ∈ s, b < 256) :
    decodeBytes (encBytes s) = s := by
  have := decode_encBytes s h []
  simpa [decodeBytes] using this

theorem splitEq_append (k v : List Nat) (hk : ∀ x ∈ k, x ≠ 61) :
    splitEq (k ++ 61 :: v) = (k, v) := by
  induction k with
  | nil => simp [splitEq]
  | cons c k ih =>
    have hc : c ≠ 61 := hk c (List.mem_cons_self c k)
    have hk2 : ∀ x ∈ k, x ≠ 61 := fun x hx => hk x (List.mem_cons_of_mem c hx)
    simp [splitEq, hc, ih hk2]

theorem splitAmp_no_amp (p : List Nat) (hp : ∀ x ∈ p, x ≠ 38) :
    splitAmp p = [p] := by
  induction p with
  | nil => rfl
  | cons c p ih =>
    have hc : c ≠ 38 := hp c (List.mem_cons_self c p)
    have hp2 : ∀ x ∈ p, x ≠ 38 := fun x hx => hp x (List.mem_cons_of_mem c hx)
    simp [splitAmp, hc, ih hp2]

theorem splitAmp_append (p rest : List Nat) (hp : ∀ x ∈ p, x ≠ 38) :
    splitAmp (p ++ 38 :: rest) = p :: splitAmp rest := by
  induction p with
  | nil => simp [splitAmp]
  | cons c p ih =>
    have hc : c ≠ 38 := hp c (List.mem_cons_self c p)
    have hp2 : ∀ x ∈ p, x ≠ 38 := fun x hx => hp x (List.mem_cons_of_mem c hx)
    simp [splitAmp, hc, ih hp2]

theorem serializePair_no_amp (kv : List Nat × List Nat) :
    ∀ x ∈ serializePair kv, x ≠ 38 := by
  intro x hx
  simp only [serializePair, List.mem_append, List.mem_cons] at hx
  rcases hx with hx | rfl | hx
  · exact (encBytes_no_special kv.1 x hx).1
  · omega
  · exact (encBytes_no_special kv.2 x hx).1

theorem serializePair_ne_nil (kv : List Nat × List Nat) :
    serializePair kv ≠ [] := by
  simp [serializePair]

/-- Parsing one serialized pair recovers the pair. -/
theorem parse_serializePair (kv : List Nat × List Nat)
    (h1 : ∀ b ∈ kv.1, b < 256) (h2 : ∀ b ∈ kv.2, b < 256) :
    (decodeBytes (splitEq (serializePair kv)).1,
     decodeBytes (splitEq (serializePair kv)).2) = kv := by
  have hk : ∀ x ∈ encBytes kv.1, x ≠ 61 :=
    fun x hx => (encBytes_no_special kv.1 x hx).2
  simp only [serializePair, splitEq_append _ _ hk]
  rw [decode_encBytes_nil kv.1 h1, decode_encBytes_nil kv.2 h2]

/-! ### Handler-shape lemmas -/

theorem handler_headers {α : Type} (m : String) (u i : Option String)
    (up : FetchOutcome α) : (handler m u i up).res.headers = corsHeaders := by
  unfold handler
  repeat' split
  all_goals rfl

theorem handler_fetched {α : Type} (u i : Option String) (up : FetchOutcome α)
    (hp : (truthy u || truthy i) = true) :
    (handler "GET" u i up).fetched = some (kaitoUrlCodes u i) := by
  have hcond : (!truthy u && !truthy i) = false := by
    rw [← Bool.not_or, hp]; rfl
  unfold handler
  simp only [hcond]
  cases up with
  | transportError => simp
  | resp s st body => cases body <;> simp <;> split <;> rfl

/-- Serializing any list of byte-string pairs and parsing the result
back recovers the pairs exactly. -/
theorem parseQuery_serializeQuery (l : List (List Nat × List Nat))
    (h : ∀ kv ∈ l, (∀ b ∈ kv.1, b < 256) ∧ (∀ b ∈ kv.2, b < 256)) :
    parseQuery (serializeQuery l) = l := by
  induction l with
  | nil => rfl
  | cons kv tail ih =>
    have hkv := h kv (List.mem_cons_self kv tail)
    have htail : ∀ x ∈ tail, (∀ b ∈ x.1, b < 256) ∧ (∀ b ∈ x.2, b < 256) :=
      fun x hx => h x (List.mem_cons_of_mem kv hx)
    have hamp := serializePair_no_amp kv
    have hne : (serializePair kv).isEmpty = false := by
      simp [serializePair]
    cases tail with
    | nil =>
      show parseQuery (serializePair kv) = [kv]
      unfold parseQuery
      rw [splitAmp_no_amp _ hamp]
      simp only [List.filter_cons, hne, Bool.not_false, if_pos, List.filter_nil,
        List.map_cons, List.map_nil]
      rw [show ((decodeBytes (splitEq (serializePair kv)).1,
                 decodeBytes (splitEq (serializePair kv)).2) : List Nat × List Nat)
            = kv from parse_serializePair kv hkv.1 hkv.2]
    | cons kv2 rest =>
      have step : parseQuery (serializeQuery (kv :: kv2 :: rest))
          = (decodeBytes (splitEq (serializePair kv)).1,
             decodeBytes (splitEq (serializePair kv)).2)
            :: parseQuery (serializeQuery (kv2 :: rest)) := by
        unfold parseQuery
        rw [show serializeQuery (kv :: kv2 :: rest)
              = serializePair kv ++ 38 :: serializeQuery (kv2 :: rest) from rfl]
        rw [splitAmp_append _ _ hamp]
        simp [hne]
      rw [step, parse_serializePair kv hkv.1 hkv.2, ih htail]

/-! ### The claims -/

/-- Claim C1: for every GET request with at least one of username/user_id
supplied, when the upstream responds with a 2xx status and a JSON body,
the handler responds with status 200 and a body that is exactly the
upstream JSON value, unmodified (pass-through identity — the JSON type is
abstract here, so no field can be filtered, renamed, added or
validated). -/
theorem claim1_success_passthrough {α : Type} (u i : Option String)
    (status : Nat) (st : String) (data : α)
    (hp : truthy u = true ∨ truthy i = true)
    (h1 : 200 ≤ status) (h2 : status ≤ 299) :
    (handler "GET" u i (FetchOutcome.resp status st (JsonBody.ok data))).res
      = ⟨200, corsHeaders, ResBody.json data⟩ := by
  have hcond : (!truthy u && !truthy i) = false := by
    rcases hp with h | h <;> simp [h]
  unfold handler
  simp [hcond, h1, h2]

/-- Witness for C1 at a concrete input. -/
theorem claim1_witness :
    (handler "GET" (some "alice") none
        (FetchOutcome.resp 200 "OK" (JsonBody.ok (7 : Nat)))).res
      = ⟨200, corsHeaders, ResBody.json 7⟩ :=
  claim1_success_passthrough (some "alice") none 200 "OK" 7
    (Or.inl (by decide)) (by decide) (by decide)

/-- Claim C2: for every GET request with at least one parameter supplied,
the outbound URL's query string serializes exactly the parameters that
were supplied with non-empty values and no others: username alone (user
id absent or empty) yields only the username pair, user_id alone yields
only the user_id pair, and both supplied yields both pairs in order. -/
theorem claim2_outbound_query_params :
    (∀ (α : Type) (up : FetchOutcome α) (v : String), v ≠ "" →
      (handler "GET" (some v) none up).fetched
        = some (baseUrlCodes ++
            serializeQuery [(strBytes "username", strBytes v)])
      ∧ (handler "GET" (some v) (some "") up).fetched
        = some (baseUrlCodes ++
            serializeQuery [(strBytes "username", strBytes v)]))
    ∧ (∀ (α : Type) (up : FetchOutcome α) (w : String), w ≠ "" →
      (handler "GET" none (some w) up).fetched
        = some (baseUrlCodes ++
            serializeQuery [(strBytes "user_id", strBytes w)])
      ∧ (handler "GET" (some "") (some w) up).fetched
        = some (baseUrlCodes ++
            serializeQuery [(strBytes "user_id", strBytes w)]))
    ∧ (∀ (α : Type) (up : FetchOutcome α) (v w : String), v ≠ "" → w ≠ "" →
      (handler "GET" (some v) (some w) up).fetched
        = some (baseUrlCodes ++ serializeQuery
            [(strBytes "username", strBytes v),
             (strBytes "user_id", strBytes w)])) := by
  refine ⟨fun α up v hv => ⟨?_, ?_⟩, fun α up w hw => ⟨?_, ?_⟩,
    fun α up v w hv hw => ?_⟩
  · rw [handler_fetched _ _ _ (by simp [truthy, hv])]
    unfold kaitoUrlCodes queryStringCodes
    simp [pairBytes, buildPairs, truthy, hv]
  · rw [handler_fetched _ _ _ (by simp [truthy, hv])]
    unfold kaitoUrlCodes queryStringCodes
    simp [pairBytes, buildPairs, truthy, hv]
  · rw [handler_fetched _ _ _ (by simp [truthy, hw])]
    unfold kaitoUrlCodes queryStringCodes
    simp [pairBytes, buildPairs, truthy, hw]
  · rw [handler_fetched _ _ _ (by simp [truthy, hw])]
    unfold kaitoUrlCodes queryStringCodes
    simp [pairBytes, buildPairs, truthy, hw]
  · rw [handler_fetched _ _ _ (by simp [truthy, hv])]
    unfold kaitoUrlCodes queryStringCodes
    simp [pairBytes, buildPairs, truthy, hv, hw]

/-- Witness for C2 at concrete inputs. -/
theorem claim2_witness :
    (handler "GET" (some "alice") none
        (FetchOutcome.transportError : FetchOutcome Nat)).fetched
      = some (baseUrlCodes ++
          serializeQuery [(strBytes "username", strBytes "alice")])
    ∧ (handler "GET" (some "alice") (some "295")
        (FetchOutcome.transportError : FetchOutcome Nat)).fetched
      = some (baseUrlCodes ++ serializeQuery
          [(strBytes "username", strBytes "alice"),
           (strBytes "user_id", strBytes "295")]) :=
  ⟨(claim2_outbound_query_params.1 Nat FetchOutcome.transportError
      "alice" (by decide)).1,
   claim2_outbound_query_params.2.2 Nat FetchOutcome.transportError
      "alice" "295" (by decide) (by decide)⟩

/-- Claim C3: for every GET request where both username and user_id are
absent or empty, the handler responds 400 with the required-parameter
error body, and no outbound upstream call is attempted (fetched is
none). -/
theorem claim3_missing_params_400 {α : Type} (u i : Option String)
    (up : FetchOutcome α) (hu : truthy u = false) (hi : truthy i = false) :
    handler "GET" u i up
      = ⟨⟨400, corsHeaders, ResBody.errorObj "username or user_id required"⟩,
         none⟩ := by
  unfold handler
  simp [hu, hi]

/-- Witness for C3 at a concrete input. -/
theorem claim3_witness :
    handler "GET" none (some "")
        (FetchOutcome.transportError : FetchOutcome Nat)
      = ⟨⟨400, corsHeaders, ResBody.errorObj "username or user_id required"⟩,
         none⟩ :=
  claim3_missing_params_400 none (some "") FetchOutcome.transportError
    (by decide) (by decide)

/-- Claim C4: for every GET request with at least one parameter supplied,
any non-2xx upstream status yields a 502 response with body
errorObj "Upstream error", uniformly in the upstream body — the body is
universally quantified and absent from the result, so no upstream error
content reaches the caller. -/
theorem claim4_upstream_error_502 {α : Type} (u i : Option String)
    (status : Nat) (st : String) (body : JsonBody α)
    (hp : truthy u = true ∨ truthy i = true)
    (hbad : ¬ (200 ≤ status ∧ status ≤ 299)) :
    (handler "GET" u i (FetchOutcome.resp status st body)).res
      = ⟨502, corsHeaders, ResBody.errorObj "Upstream error"⟩ := by
  have hcond : (!truthy u && !truthy i) = false := by
    rcases hp with h | h <;> simp [h]
  unfold handler
  rcases Nat.lt_or_ge status 200 with h | h
  · have h1 : ¬ (200 ≤ status) := by omega
    simp [hcond, h1]
  · have h2 : ¬ (status ≤ 299) := by omega
    simp [hcond, h2]

/-- Witness for C4 at a concrete input. -/
theorem claim4_witness :
    (handler "GET" (some "alice") none
        (FetchOutcome.resp 404 "Not Found"
          (JsonBody.ok (99 : Nat)))).res
      = ⟨502, corsHeaders, ResBody.errorObj "Upstream error"⟩ :=
  claim4_upstream_error_502 (some "alice") none 404 "Not Found"
    (JsonBody.ok 99) (Or.inl (by decide)) (by omega)

/-- Claim C5: for every GET request with a parameter supplied, a throwing
step — the outbound transport failing, or the 2xx upstream body failing
to parse as JSON — is caught and yields a 500 response with body
errorObj "Internal server error"; the handler is a total function, so
every invocation terminates in exactly one response. -/
theorem claim5_exception_500 {α : Type} (u i : Option String)
    (hp : truthy u = true ∨ truthy i = true) :
    (handler "GET" u i (FetchOutcome.transportError : FetchOutcome α)).res
      = ⟨500, corsHeaders, ResBody.errorObj "Internal server error"⟩
    ∧ ∀ (status : Nat) (st : String), 200 ≤ status → status ≤ 299 →
      (handler "GET" u i
          (FetchOutcome.resp status st (JsonBody.malformed : JsonBody α))).res
        = ⟨500, corsHeaders, ResBody.errorObj "Internal server error"⟩ := by
  have hcond : (!truthy u && !truthy i) = false := by
    rcases hp with h | h <;> simp [h]
  constructor
  · unfold handler
    simp [hcond]
  · intro status st h1 h2
    unfold handler
    simp [hcond, h1, h2]

/-- Witness for C5 at concrete inputs. -/
theorem claim5_witness :
    (handler "GET" (some "alice") none
        (FetchOutcome.transportError : FetchOutcome Nat)).res
      = ⟨500, corsHeaders, ResBody.errorObj "Internal server error"⟩
    ∧ (handler "GET" (some "alice") none
        (FetchOutcome.resp 200 "OK" (JsonBody.malformed : JsonBody Nat))).res
      = ⟨500, corsHeaders, ResBody.errorObj "Internal server error"⟩ :=
  ⟨(claim5_exception_500 (some "alice") none (Or.inl (by decide))).1,
   (claim5_exception_500 (some "alice") none (Or.inl (by decide))).2
      200 "OK" (by decide) (by decide)⟩

/-- Claim C6: on every response path of the handler — preflight, 405, 400,
502, 500 and success — the three CORS headers are present with exactly
the values star, GET and Content-Type. -/
theorem claim6_cors_all_paths {α : Type} (m : String) (u i : Option String)
    (up : FetchOutcome α) :
    ("Access-Control-Allow-Origin", "*") ∈ (handler m u i up).res.headers
    ∧ ("Access-Control-Allow-Methods", "GET") ∈ (handler m u i up).res.headers
    ∧ ("Access-Control-Allow-Headers", "Content-Type")
        ∈ (handler m u i up).res.headers := by
  simp [handler_headers, corsHeaders]

/-- Claim C7: every OPTIONS request, regardless of query parameters and
upstream behavior, gets status 200 with an empty body, and no upstream
call is made (fetched is none). -/
theorem claim7_options_preflight {α : Type} (u i : Option String)
    (up : FetchOutcome α) :
    handler "OPTIONS" u i up = ⟨⟨200, corsHeaders, ResBody.empty⟩, none⟩ := by
  unfold handler
  simp

/-- Claim C8: every request whose method is neither GET nor OPTIONS gets
status 405 with body errorObj "Method not allowed", regardless of the
query parameters, and no upstream call is made (fetched is none). -/
theorem claim8_method_not_allowed_405 {α : Type} (m : String)
    (u i : Option String) (up : FetchOutcome α)
    (h1 : m ≠ "OPTIONS") (h2 : m ≠ "GET") :
    handler m u i up
      = ⟨⟨405, corsHeaders, ResBody.errorObj "Method not allowed"⟩, none⟩ := by
  unfold handler
  simp [h1, h2]

/-- Witness for C8 at a concrete input. -/
theorem claim8_witness :
    handler "POST" (some "alice") none
        (FetchOutcome.transportError : FetchOutcome Nat)
      = ⟨⟨405, corsHeaders, ResBody.errorObj "Method not allowed"⟩, none⟩ :=
  claim8_method_not_allowed_405 "POST" (some "alice") none
    FetchOutcome.transportError (by decide) (by decide)

/-- Claim C9: the handler is deterministic in its inputs — two invocations
with the same method, the same query parameters and the same upstream
behavior produce responses with identical status and identical body. -/
theorem claim9_deterministic {α : Type} (m : String) (u i : Option String)
    (up : FetchOutcome α) (r1 r2 : HandlerResult α)
    (h1 : handler m u i up = r1) (h2 : handler m u i up = r2) :
    r1.res.status = r2.res.status ∧ r1.res.body = r2.res.body := by
  subst h1
  subst h2
  exact ⟨rfl, rfl⟩

/-- Witness for C9 at a concrete input. -/
theorem claim9_witness :
    (handler "GET" (some "bob") none
        (FetchOutcome.resp 200 "OK" (JsonBody.ok (1 : Nat)))).res.status
      = (handler "GET" (some "bob") none
          (FetchOutcome.resp 200 "OK" (JsonBody.ok (1 : Nat)))).res.status
    ∧ (handler "GET" (some "bob") none
        (FetchOutcome.resp 200 "OK" (JsonBody.ok (1 : Nat)))).res.body
      = (handler "GET" (some "bob") none
          (FetchOutcome.resp 200 "OK" (JsonBody.ok (1 : Nat)))).res.body :=
  claim9_deterministic "GET" (some "bob") none
    (FetchOutcome.resp 200 "OK" (JsonBody.ok 1)) _ _ rfl rfl

/-- Claim C10: the outbound query string is built by percent-encoding the
supplied values, so parsing it back yields exactly the supplied key–value
pairs (as UTF-8 byte strings) — a value containing ampersand, equals or
hash can never introduce an additional or altered parameter. -/
theorem claim10_query_roundtrip (u i : Option String) :
    parseQuery (queryStringCodes u i) = pairBytes u i := by
  unfold queryStringCodes
  apply parseQuery_serializeQuery
  intro kv hkv
  simp only [pairBytes, List.mem_map] at hkv
  obtain ⟨kv2, hmem, rfl⟩ := hkv
  exact ⟨strBytes_lt _, strBytes_lt _⟩

end KaitoProxy
